import Mathlib

/-!
Shallow embedding of the sentry bundler plugin sources:

* the release lifecycle orchestrator steps (`createNewRelease`, `cleanArtifacts`,
  `uploadSourceMaps`, `setCommits`, `finalizeRelease`, `addDeploy`) from the
  sentry facade module, modelled as functions that return the ordered trace of
  observable events (span start/finish, external CLI calls, captured exceptions,
  breadcrumbs, log lines) together with the control-flow outcome
  (`Except err Unit`: `ok` for normal return, `error e` for a thrown `e`);

* the three esbuild plugins (`esbuildReleaseInjectionPlugin`,
  `esbuildDebugIdInjectionPlugin`, `esbuildDebugIdUploadPlugin`), modelled as
  pure hook functions.  Calls to the uuid generator are modelled by an explicit
  `uuid : String` argument: it stands for the fresh value the generator yields
  during that particular hook invocation (freshness of the generator is then
  expressed as hypotheses `u1 ≠ u2` relating two distinct invocations).  Hooks
  whose source never calls the generator ignore the argument.
-/

/-! ## Data model of the orchestrator -/

/-- The `setCommits` option object (`auto`, `repo`, `commit`, `previousCommit`,
`ignoreMissing`, `ignoreEmpty`), all individually optional in the source. -/
structure SetCommitsOptions where
  auto : Option Bool
  repo : Option String
  commit : Option String
  previousCommit : Option String
  ignoreMissing : Option Bool
  ignoreEmpty : Option Bool
deriving DecidableEq, Repr

/-- The `deploy` option object (`env`, `started`, `finished`, `time`, `name`,
`url`). -/
structure DeployOptions where
  env : String
  started : Option Nat
  finished : Option Nat
  time : Option Nat
  name : Option String
  url : Option String
deriving DecidableEq, Repr

/-- The fields of `NormalizedOptions` the orchestrator steps read.  The source
field `include` is rendered `includePaths` (`include` is a Lean keyword). -/
structure NormalizedOptions where
  cleanArtifacts : Bool
  uploadSourceMaps : Bool
  includePaths : List String
  dist : Option String
  setCommits : Option SetCommitsOptions
  finalize : Bool
  deploy : Option DeployOptions
deriving DecidableEq, Repr

/-- One external call against the release-tracking service, through
`ctx.cli.releases`.  Constructors carry exactly the arguments the source
passes. -/
inductive ExtCall where
  | releasesNew (releaseName : String)
  | releasesExecute (args : List String) (live : Bool)
  | uploadSourceMaps (releaseName : String) (includePaths : List String)
      (dist : Option String)
  | setCommits (releaseName : String) (opts : SetCommitsOptions)
  | finalize (releaseName : String)
  | newDeploy (releaseName : String) (opts : DeployOptions)
deriving DecidableEq, Repr

/-- One observable event of a step run, in program order. -/
inductive Event where
  | spanStart (op : String)
  | spanFinish (op : String)
  | extCall (call : ExtCall)
  | captureException (message : String)
  | breadcrumb (level : String) (message : String)
  | log (level : String) (message : String)
deriving DecidableEq, Repr

/-- The build context: whether `addSpanToTransaction` actually yields a span
(the telemetry helper no-ops when telemetry is disabled), and the behaviour of
the external service (`ctx.cli.releases.*`): for each call, either normal
completion or a thrown error payload. -/
structure BuildContext where
  telemetryActive : Bool
  cli : ExtCall → Except String Unit

/-- Events of `addSpanToTransaction ctx op`: a span is started iff telemetry is
active (the helper is modelled from the spec as a safe no-op otherwise). -/
def spanStartEvents (ctx : BuildContext) (op : String) : List Event :=
  if ctx.telemetryActive then [Event.spanStart op] else []

/-- Events of the `finally` block `span?.finish()`: finishes the span iff one
was started. -/
def spanFinishEvents (ctx : BuildContext) (op : String) : List Event :=
  if ctx.telemetryActive then [Event.spanFinish op] else []

/-! ## The orchestrator steps -/

/-- `createNewRelease(options, ctx, releaseName)`: span, try
`ctx.cli.releases.new(releaseName)`, on throw capture
"CLI Error: Creating new release failed" and re-throw, finally finish the span;
on success add a breadcrumb and log info. -/
def createNewRelease (_options : NormalizedOptions) (ctx : BuildContext)
    (releaseName : String) : List Event × Except String Unit :=
  match ctx.cli (ExtCall.releasesNew releaseName) with
  | Except.ok _ =>
      (spanStartEvents ctx "function.plugin.create_release" ++
        [Event.extCall (ExtCall.releasesNew releaseName)] ++
        spanFinishEvents ctx "function.plugin.create_release" ++
        [Event.breadcrumb "info" "Successfully created release.",
         Event.log "info" "Successfully created release."],
       Except.ok ())
  | Except.error e =>
      (spanStartEvents ctx "function.plugin.create_release" ++
        [Event.extCall (ExtCall.releasesNew releaseName),
         Event.captureException "CLI Error: Creating new release failed"] ++
        spanFinishEvents ctx "function.plugin.create_release",
       Except.error e)

/-- `cleanArtifacts(options, ctx, releaseName)`: skip (debug log only) when
`options.cleanArtifacts` is false; otherwise span, try
`ctx.cli.releases.execute(["releases","files",releaseName,"delete","--all"], true)`,
capture "CLI Error: Deleting release files failed" and re-throw on failure,
finally finish span; breadcrumb + info log on success. -/
def cleanArtifacts (options : NormalizedOptions) (ctx : BuildContext)
    (releaseName : String) : List Event × Except String Unit :=
  if !options.cleanArtifacts then
    ([Event.log "debug" "Skipping artifact cleanup."], Except.ok ())
  else
    match ctx.cli (ExtCall.releasesExecute
        ["releases", "files", releaseName, "delete", "--all"] true) with
    | Except.ok _ =>
        (spanStartEvents ctx "function.plugin.clean_artifacts" ++
          [Event.extCall (ExtCall.releasesExecute
            ["releases", "files", releaseName, "delete", "--all"] true)] ++
          spanFinishEvents ctx "function.plugin.clean_artifacts" ++
          [Event.breadcrumb "info" "Successfully cleaned previous artifacts.",
           Event.log "info" "Successfully cleaned previous artifacts."],
         Except.ok ())
    | Except.error e =>
        (spanStartEvents ctx "function.plugin.clean_artifacts" ++
          [Event.extCall (ExtCall.releasesExecute
            ["releases", "files", releaseName, "delete", "--all"] true),
           Event.captureException "CLI Error: Deleting release files failed"] ++
          spanFinishEvents ctx "function.plugin.clean_artifacts",
         Except.error e)

/-- `uploadSourceMaps(options, ctx, releaseName)`: skip (debug log only) when
`options.uploadSourceMaps` is false; otherwise span, info log
"Uploading Sourcemaps.", try
`ctx.cli.releases.uploadSourceMaps(releaseName, {include, dist})`, capture
"CLI Error: Uploading source maps failed" and re-throw on failure, finally
finish span; breadcrumb + info log on success. -/
def uploadSourceMaps (options : NormalizedOptions) (ctx : BuildContext)
    (releaseName : String) : List Event × Except String Unit :=
  if !options.uploadSourceMaps then
    ([Event.log "debug" "Skipping source maps upload."], Except.ok ())
  else
    match ctx.cli (ExtCall.uploadSourceMaps releaseName options.includePaths
        options.dist) with
    | Except.ok _ =>
        (spanStartEvents ctx "function.plugin.upload_sourcemaps" ++
          [Event.log "info" "Uploading Sourcemaps.",
           Event.extCall (ExtCall.uploadSourceMaps releaseName
             options.includePaths options.dist)] ++
          spanFinishEvents ctx "function.plugin.upload_sourcemaps" ++
          [Event.breadcrumb "info" "Successfully uploaded source maps.",
           Event.log "info" "Successfully uploaded source maps."],
         Except.ok ())
    | Except.error e =>
        (spanStartEvents ctx "function.plugin.upload_sourcemaps" ++
          [Event.log "info" "Uploading Sourcemaps.",
           Event.extCall (ExtCall.uploadSourceMaps releaseName
             options.includePaths options.dist),
           Event.captureException "CLI Error: Uploading source maps failed"] ++
          spanFinishEvents ctx "function.plugin.upload_sourcemaps",
         Except.error e)

/-- `setCommits(options, ctx, releaseName)`: skip (debug log only) when
`options.setCommits` is absent; otherwise span, try
`ctx.cli.releases.setCommits(releaseName, {...})`, capture
"CLI Error: Setting commits failed" and re-throw on failure, finally finish
span; on success only an info log (no breadcrumb). -/
def setCommits (options : NormalizedOptions) (ctx : BuildContext)
    (releaseName : String) : List Event × Except String Unit :=
  match options.setCommits with
  | none =>
      ([Event.log "debug" "Skipping setting commits to release."], Except.ok ())
  | some sc =>
      match ctx.cli (ExtCall.setCommits releaseName sc) with
      | Except.ok _ =>
          (spanStartEvents ctx "function.plugin.set_commits" ++
            [Event.extCall (ExtCall.setCommits releaseName sc)] ++
            spanFinishEvents ctx "function.plugin.set_commits" ++
            [Event.log "info" "Successfully set commits."],
           Except.ok ())
      | Except.error e =>
          (spanStartEvents ctx "function.plugin.set_commits" ++
            [Event.extCall (ExtCall.setCommits releaseName sc),
             Event.captureException "CLI Error: Setting commits failed"] ++
            spanFinishEvents ctx "function.plugin.set_commits",
           Except.error e)

/-- `finalizeRelease(options, ctx, releaseName)`: skip (breadcrumb + debug log)
when `options.finalize` is false; otherwise span, try
`ctx.cli.releases.finalize(releaseName)`, capture
"CLI Error: Finalizing release failed" and re-throw on failure, finally finish
span; breadcrumb + info log on success. -/
def finalizeRelease (options : NormalizedOptions) (ctx : BuildContext)
    (releaseName : String) : List Event × Except String Unit :=
  if !options.finalize then
    ([Event.breadcrumb "info" "Skipping release finalization.",
      Event.log "debug" "Skipping release finalization."], Except.ok ())
  else
    match ctx.cli (ExtCall.finalize releaseName) with
    | Except.ok _ =>
        (spanStartEvents ctx "function.plugin.finalize_release" ++
          [Event.extCall (ExtCall.finalize releaseName)] ++
          spanFinishEvents ctx "function.plugin.finalize_release" ++
          [Event.breadcrumb "info" "Successfully finalized release.",
           Event.log "info" "Successfully finalized release."],
         Except.ok ())
    | Except.error e =>
        (spanStartEvents ctx "function.plugin.finalize_release" ++
          [Event.extCall (ExtCall.finalize releaseName),
           Event.captureException "CLI Error: Finalizing release failed"] ++
          spanFinishEvents ctx "function.plugin.finalize_release",
         Except.error e)

/-- `addDeploy(options, ctx, releaseName)`: skip (breadcrumb + debug log) when
`options.deploy` is absent; otherwise span, try
`ctx.cli.releases.newDeploy(releaseName, {...})`, capture
"CLI Error: Adding deploy info failed" and re-throw on failure, finally finish
span; breadcrumb + info log on success. -/
def addDeploy (options : NormalizedOptions) (ctx : BuildContext)
    (releaseName : String) : List Event × Except String Unit :=
  match options.deploy with
  | none =>
      ([Event.breadcrumb "info" "Skipping adding deploy info to release.",
        Event.log "debug" "Skipping adding deploy info to release."],
       Except.ok ())
  | some d =>
      match ctx.cli (ExtCall.newDeploy releaseName d) with
      | Except.ok _ =>
          (spanStartEvents ctx "function.plugin.deploy" ++
            [Event.extCall (ExtCall.newDeploy releaseName d)] ++
            spanFinishEvents ctx "function.plugin.deploy" ++
            [Event.breadcrumb "info" "Successfully added deploy.",
             Event.log "info" "Successfully added deploy."],
           Except.ok ())
      | Except.error e =>
          (spanStartEvents ctx "function.plugin.deploy" ++
            [Event.extCall (ExtCall.newDeploy releaseName d),
             Event.captureException "CLI Error: Adding deploy info failed"] ++
            spanFinishEvents ctx "function.plugin.deploy",
           Except.error e)

/-! ## Data model of the esbuild hooks -/

/-- Arguments of an esbuild `onResolve` callback (the fields the plugins read):
the import path, the resolution kind (`"entry-point"`, `"import-statement"`,
...), and the resolve directory.  The source field `namespace` is rendered
`nsp` (`namespace` is a Lean keyword). -/
structure OnResolveArgs where
  path : String
  kind : String
  resolveDir : String
  nsp : String
deriving DecidableEq, Repr

/-- The `pluginData` payload the debug-id injection plugin threads from its
entry-point resolver to its proxy loader. -/
structure PluginData where
  originalPath : String
  originalResolveDir : String
deriving DecidableEq, Repr

/-- Result object of an `onResolve` callback; fields the source leaves unset
are `none`. -/
structure ResolveResult where
  pluginName : Option String
  path : Option String
  nsp : Option String
  sideEffects : Option Bool
  suffix : Option String
  pluginData : Option PluginData
deriving DecidableEq, Repr

/-- Result object of an `onLoad` callback. -/
structure LoadResult where
  loader : String
  pluginName : String
  contents : String
  resolveDir : Option String
deriving DecidableEq, Repr

/-- The `initialOptions` fields the plugin setups mutate. -/
structure InitialOptions where
  inject : Option (List String)
  metafile : Option Bool
deriving DecidableEq, Repr

/-- Modelled from the spec: `getDebugIdSnippet` is imported from
`@sentry/bundler-plugin-core`, whose source is not in the repository slice.
Per the spec (§4.1) it returns a self-contained code fragment that, when
evaluated, registers the given freshly generated identifier in a reserved
runtime-global debug-id registry.  The identifier is embedded verbatim in the
fragment. -/
def getDebugIdSnippet (debugId : String) : String :=
  "!function()\x7btry\x7bvar g=typeof window!==\"undefined\"?window:global;g._sentryDebugIds=g._sentryDebugIds||\x7b\x7d;g._sentryDebugIds[new Error().stack]=\"" ++
    debugId ++ "\";\x7dcatch(e)\x7b\x7d\x7d();"

/-! ## esbuildReleaseInjectionPlugin -/

namespace esbuildReleaseInjectionPlugin

/-- `pluginName` of the release injection plugin. -/
def pluginName : String := "sentry-esbuild-release-injection-plugin"

/-- `path.resolve("_sentry-release-injection-stub")`: the reserved virtual
path made absolute against the working directory (node's `path.resolve` of a
relative segment, modelled for an absolute `cwd` without trailing slash). -/
def virtualReleaseInjectionFilePath (cwd : String) : String :=
  cwd ++ "/" ++ "_sentry-release-injection-stub"

/-- The setup's mutation of `initialOptions`:
`initialOptions.inject = initialOptions.inject || []` then
`initialOptions.inject.push(virtualReleaseInjectionFilePath)`. -/
def setupInject (cwd : String) (initialOptions : InitialOptions) :
    InitialOptions :=
  { initialOptions with
    inject := some ((initialOptions.inject.getD []) ++
      [virtualReleaseInjectionFilePath cwd]) }

/-- The `onResolve` callback for `/_sentry-release-injection-stub/`.  The
`uuid` argument is the fresh value the uuid generator would yield during this
invocation; this callback never calls the generator and ignores it. -/
def onResolveStub (args : OnResolveArgs) (_uuid : String) : ResolveResult :=
  { pluginName := some pluginName
    path := some args.path
    nsp := none
    sideEffects := some true
    suffix := none
    pluginData := none }

/-- The `onLoad` callback for `/_sentry-release-injection-stub/`: always the
fixed `injectionCode` captured by the plugin factory.  The `uuid` argument is
the fresh value the uuid generator would yield during this invocation; this
callback never calls the generator and ignores it. -/
def onLoadStub (injectionCode : String) (_uuid : String) : LoadResult :=
  { loader := "js"
    pluginName := pluginName
    contents := injectionCode
    resolveDir := none }

end esbuildReleaseInjectionPlugin

/-! ## esbuildDebugIdInjectionPlugin -/

namespace esbuildDebugIdInjectionPlugin

/-- `pluginName` of the debug-id injection plugin. -/
def pluginName : String := "sentry-esbuild-debug-id-injection-plugin"

/-- `proxyNamespace`. -/
def proxyNamespace : String := "sentry-debug-id-proxy"

/-- `stubNamespace`. -/
def stubNamespace : String := "sentry-debug-id-stub"

/-- The `onResolve` callback with filter `/.*/`: returns `undefined` (here
`none`, resolution untouched) unless `args.kind` is `"entry-point"`; an entry
point is redirected into the proxy namespace, recording the original path and
resolve directory in `pluginData`. -/
def onResolveEntry (args : OnResolveArgs) : Option ResolveResult :=
  if args.kind ≠ "entry-point" then
    none
  else
    some
      { pluginName := some pluginName
        path := some args.path
        nsp := some proxyNamespace
        sideEffects := none
        suffix := none
        pluginData := some
          { originalPath := args.path
            originalResolveDir := args.resolveDir } }

/-- The proxy module source, the template literal of the source file:
stub import, import of the original module, explicit default forwarding,
wildcard re-export from the original path. -/
def proxyContents (originalPath : String) : String :=
  "\n              " ++ "import \"_sentry-debug-id-injection-stub\";" ++
  "\n              " ++ "import * as OriginalModule from \"" ++ originalPath ++ "\";" ++
  "\n              " ++ "export default OriginalModule.default;" ++
  "\n              " ++ "export * from \"" ++ originalPath ++ "\";"

/-- The `onLoad` callback with filter `/.*/` in the proxy namespace: builds
the proxy module from `args.pluginData`. -/
def onLoadProxy (pluginData : PluginData) : LoadResult :=
  { loader := "js"
    pluginName := pluginName
    contents := proxyContents pluginData.originalPath
    resolveDir := some pluginData.originalResolveDir }

/-- The `onResolve` callback for `/_sentry-debug-id-injection-stub/`: keeps
the path, marks it side-effecting, moves it into the stub namespace and tags
it with `"?sentry-module-id=" + uuidv4()` — `uuid` is the fresh value the
generator yields during this invocation. -/
def onResolveStub (args : OnResolveArgs) (uuid : String) : ResolveResult :=
  { pluginName := some pluginName
    path := some args.path
    nsp := some stubNamespace
    sideEffects := some true
    suffix := some ("?sentry-module-id=" ++ uuid)
    pluginData := none }

/-- The `onLoad` callback for `/_sentry-debug-id-injection-stub/` in the stub
namespace: contents are `getDebugIdSnippet(uuidv4())` — `uuid` is the fresh
value the generator yields during this invocation. -/
def onLoadStub (uuid : String) : LoadResult :=
  { loader := "js"
    pluginName := pluginName
    contents := getDebugIdSnippet uuid
    resolveDir := none }

end esbuildDebugIdInjectionPlugin

/-! ## esbuildDebugIdUploadPlugin -/

namespace esbuildDebugIdUploadPlugin

/-- An entry of the metafile's `outputs` object: output path and its record
(contents irrelevant to the plugin, kept abstract as a unit). -/
structure Metafile where
  outputs : List (String × Unit)
deriving DecidableEq, Repr

/-- The esbuild build-end result: the metafile when the host produced one. -/
structure BuildResult where
  metafile : Option Metafile
deriving DecidableEq, Repr

/-- The setup's mutation of `initialOptions`: `initialOptions.metafile = true`,
unconditionally. -/
def setupMetafile (initialOptions : InitialOptions) : InitialOptions :=
  { initialOptions with metafile := some true }

/-- `Object.keys(result.metafile.outputs)` when the metafile is present, `[]`
otherwise. -/
def buildArtifactsOf (result : BuildResult) : List String :=
  match result.metafile with
  | some m => m.outputs.map Prod.fst
  | none => []

/-- The `onEnd` callback: calls `upload` once with the artifact list.  The
first component records the argument lists of all `upload` invocations made,
in order; the second is the callback's own outcome (`upload`'s error, if any,
is not caught and propagates). -/
def onEnd (upload : List String → Except String Unit) (result : BuildResult) :
    List (List String) × Except String Unit :=
  ([buildArtifactsOf result], upload (buildArtifactsOf result))

end esbuildDebugIdUploadPlugin

/-! ## Helper lemmas and sample inputs -/

/-- Left cancellation for string concatenation. -/
theorem stringAppendLeftCancel {a x y : String} (h : a ++ x = a ++ y) : x = y := by
  have h2 := congrArg String.data h
  simp only [String.data_append] at h2
  exact String.ext (List.append_cancel_left h2)

/-- Right cancellation for string concatenation. -/
theorem stringAppendRightCancel {x y b : String} (h : x ++ b = y ++ b) : x = y := by
  have h2 := congrArg String.data h
  simp only [String.data_append] at h2
  exact String.ext (List.append_cancel_right h2)

/-- The debug-id snippet embeds the identifier injectively: distinct fresh
identifiers yield distinct snippets. -/
theorem getDebugIdSnippet_inj {u1 u2 : String}
    (h : getDebugIdSnippet u1 = getDebugIdSnippet u2) : u1 = u2 := by
  unfold getDebugIdSnippet at h
  exact stringAppendLeftCancel (stringAppendRightCancel h)

/-- A sample entry-point resolution. -/
def sampleEntryArgs : OnResolveArgs :=
  { path := "./index.js", kind := "entry-point", resolveDir := "/proj", nsp := "file" }

/-- A sample non-entry (import-statement) resolution. -/
def sampleImportArgs : OnResolveArgs :=
  { path := "./util.js", kind := "import-statement", resolveDir := "/proj", nsp := "file" }

/-- Sample plugin data threaded from the entry resolver to the proxy loader. -/
def samplePluginData : PluginData :=
  { originalPath := "./index.js", originalResolveDir := "/proj" }

/-! ## C10 -/

/-- C10: the debug-id upload plugin's setup unconditionally sets
`initialOptions.metafile` to true (touching nothing else), the
release-injection plugin's setup appends its virtual stub path to
`initialOptions.inject`, keeping every pre-existing entry and initializing the
array when absent, and the artifact list is empty only on a missing
metafile. -/
theorem c10_setup_effects :
    (∀ (initialOptions : InitialOptions),
      (esbuildDebugIdUploadPlugin.setupMetafile initialOptions).metafile = some true ∧
      (esbuildDebugIdUploadPlugin.setupMetafile initialOptions).inject =
        initialOptions.inject) ∧
    (∀ (cwd : String) (initialOptions : InitialOptions),
      (esbuildReleaseInjectionPlugin.setupInject cwd initialOptions).inject =
        some ((initialOptions.inject.getD []) ++
          [esbuildReleaseInjectionPlugin.virtualReleaseInjectionFilePath cwd])) ∧
    (∀ (result : esbuildDebugIdUploadPlugin.BuildResult),
      result.metafile = none → esbuildDebugIdUploadPlugin.buildArtifactsOf result = []) := by
  refine ⟨fun initialOptions => ⟨rfl, rfl⟩, fun cwd initialOptions => rfl, ?_⟩
  intro result h
  simp [esbuildDebugIdUploadPlugin.buildArtifactsOf, h]

/-- Witness for C10 at concrete inputs. -/
theorem c10_setup_effects_witness :
    (esbuildDebugIdUploadPlugin.setupMetafile
      { inject := none, metafile := none }).metafile = some true ∧
    (esbuildReleaseInjectionPlugin.setupInject "/proj"
      { inject := some ["./polyfill.js"], metafile := none }).inject =
      some (["./polyfill.js"] ++
        [esbuildReleaseInjectionPlugin.virtualReleaseInjectionFilePath "/proj"]) ∧
    esbuildDebugIdUploadPlugin.buildArtifactsOf { metafile := none } = [] :=
  ⟨(c10_setup_effects.1 { inject := none, metafile := none }).1,
   c10_setup_effects.2.1 "/proj" { inject := some ["./polyfill.js"], metafile := none },
   c10_setup_effects.2.2 { metafile := none } rfl⟩

/-! ## C5 -/

/-- C5: the build-end callback calls the upload callback exactly once, with the
ordered list of the metafile's output paths when the metafile is present
(e.g. `["a.js", "b.js"]`), with `[]` when it is absent, and an error of the
upload callback propagates uncaught as the callback's own outcome. -/
theorem c5_on_end_upload :
    (∀ (upload : List String → Except String Unit)
        (result : esbuildDebugIdUploadPlugin.BuildResult),
      (esbuildDebugIdUploadPlugin.onEnd upload result).1 =
        [esbuildDebugIdUploadPlugin.buildArtifactsOf result] ∧
      (esbuildDebugIdUploadPlugin.onEnd upload result).1.length = 1 ∧
      (esbuildDebugIdUploadPlugin.onEnd upload result).2 =
        upload (esbuildDebugIdUploadPlugin.buildArtifactsOf result)) ∧
    (∀ (upload : List String → Except String Unit)
        (m : esbuildDebugIdUploadPlugin.Metafile),
      (esbuildDebugIdUploadPlugin.onEnd upload { metafile := some m }).1 =
        [m.outputs.map Prod.fst]) ∧
    (∀ (upload : List String → Except String Unit),
      (esbuildDebugIdUploadPlugin.onEnd upload
        { metafile := some { outputs := [("a.js", ()), ("b.js", ())] } }).1 =
        [["a.js", "b.js"]]) ∧
    (∀ (upload : List String → Except String Unit),
      (esbuildDebugIdUploadPlugin.onEnd upload { metafile := none }).1 = [[]]) ∧
    (∀ (upload : List String → Except String Unit)
        (result : esbuildDebugIdUploadPlugin.BuildResult) (e : String),
      upload (esbuildDebugIdUploadPlugin.buildArtifactsOf result) = Except.error e →
      (esbuildDebugIdUploadPlugin.onEnd upload result).2 = Except.error e) := by
  refine ⟨fun upload result => ⟨rfl, rfl, rfl⟩, fun upload m => rfl, fun upload => rfl,
    fun upload => rfl, ?_⟩
  intro upload result e h
  simpa [esbuildDebugIdUploadPlugin.onEnd] using h

/-- Witness for C5 at concrete inputs: a failing upload callback's error is the
callback outcome. -/
theorem c5_on_end_upload_witness :
    (esbuildDebugIdUploadPlugin.onEnd (fun _ => Except.error "upload failed")
      { metafile := some { outputs := [("a.js", ()), ("b.js", ())] } }).2 =
      Except.error "upload failed" :=
  c5_on_end_upload.2.2.2.2 (fun _ => Except.error "upload failed")
    { metafile := some { outputs := [("a.js", ()), ("b.js", ())] } } "upload failed" rfl

/-! ## C9 -/

/-- C9: the release-version injection path is one shared module: its resolution
keeps the path unchanged with no uniqueness suffix, and resolution and load are
deterministic (independent of the fresh value the uuid generator would yield
during the invocation — two invocations agree), in contrast to the debug-id
stub, whose resolution differs for distinct fresh values. -/
theorem c9_release_injection_shared :
    (∀ (args : OnResolveArgs) (uuid : String),
      esbuildReleaseInjectionPlugin.onResolveStub args uuid =
        { pluginName := some esbuildReleaseInjectionPlugin.pluginName
          path := some args.path
          nsp := none
          sideEffects := some true
          suffix := none
          pluginData := none }) ∧
    (∀ (args : OnResolveArgs) (u1 u2 : String),
      esbuildReleaseInjectionPlugin.onResolveStub args u1 =
        esbuildReleaseInjectionPlugin.onResolveStub args u2) ∧
    (∀ (injectionCode uuid : String),
      esbuildReleaseInjectionPlugin.onLoadStub injectionCode uuid =
        { loader := "js"
          pluginName := esbuildReleaseInjectionPlugin.pluginName
          contents := injectionCode
          resolveDir := none }) ∧
    (∀ (injectionCode u1 u2 : String),
      esbuildReleaseInjectionPlugin.onLoadStub injectionCode u1 =
        esbuildReleaseInjectionPlugin.onLoadStub injectionCode u2) ∧
    (∀ (args : OnResolveArgs) (u1 u2 : String), u1 ≠ u2 →
      esbuildDebugIdInjectionPlugin.onResolveStub args u1 ≠
        esbuildDebugIdInjectionPlugin.onResolveStub args u2) := by
  refine ⟨fun args uuid => rfl, fun args u1 u2 => rfl, fun injectionCode uuid => rfl,
    fun injectionCode u1 u2 => rfl, ?_⟩
  intro args u1 u2 hne h
  have hs := congrArg ResolveResult.suffix h
  simp only [esbuildDebugIdInjectionPlugin.onResolveStub, Option.some.injEq] at hs
  exact hne (stringAppendLeftCancel hs)

/-- Witness for C9 at concrete inputs. -/
theorem c9_release_injection_shared_witness :
    esbuildReleaseInjectionPlugin.onResolveStub sampleImportArgs "u-1" =
      esbuildReleaseInjectionPlugin.onResolveStub sampleImportArgs "u-2" ∧
    esbuildReleaseInjectionPlugin.onLoadStub "globalThis.RELEASE=\"r1\";" "u-1" =
      esbuildReleaseInjectionPlugin.onLoadStub "globalThis.RELEASE=\"r1\";" "u-2" ∧
    esbuildDebugIdInjectionPlugin.onResolveStub sampleImportArgs "u-1" ≠
      esbuildDebugIdInjectionPlugin.onResolveStub sampleImportArgs "u-2" :=
  ⟨c9_release_injection_shared.2.1 sampleImportArgs "u-1" "u-2",
   c9_release_injection_shared.2.2.2.1 "globalThis.RELEASE=\"r1\";" "u-1" "u-2",
   c9_release_injection_shared.2.2.2.2 sampleImportArgs "u-1" "u-2" (by decide)⟩

/-! ## C1 -/

/-- C1: every resolution of the debug-id injection stub is tagged with the
fresh uniqueness token as a query suffix (`"?sentry-module-id=" + uuid`),
distinct fresh tokens give distinct suffixes, every load of the stub returns
the snippet built from the freshly generated identifier, and distinct
identifiers give distinct snippet contents — so two entry points, whose stub
resolutions and loads draw distinct fresh values, never share a debug
identifier. -/
theorem c1_debug_id_uniqueness :
    (∀ (args : OnResolveArgs) (uuid : String),
      (esbuildDebugIdInjectionPlugin.onResolveStub args uuid).suffix =
        some ("?sentry-module-id=" ++ uuid)) ∧
    (∀ (args1 args2 : OnResolveArgs) (u1 u2 : String), u1 ≠ u2 →
      (esbuildDebugIdInjectionPlugin.onResolveStub args1 u1).suffix ≠
        (esbuildDebugIdInjectionPlugin.onResolveStub args2 u2).suffix) ∧
    (∀ (uuid : String),
      (esbuildDebugIdInjectionPlugin.onLoadStub uuid).contents =
        getDebugIdSnippet uuid) ∧
    (∀ (u1 u2 : String), u1 ≠ u2 →
      (esbuildDebugIdInjectionPlugin.onLoadStub u1).contents ≠
        (esbuildDebugIdInjectionPlugin.onLoadStub u2).contents) := by
  refine ⟨fun args uuid => rfl, ?_, fun uuid => rfl, ?_⟩
  · intro args1 args2 u1 u2 hne h
    simp only [esbuildDebugIdInjectionPlugin.onResolveStub, Option.some.injEq] at h
    exact hne (stringAppendLeftCancel h)
  · intro u1 u2 hne h
    simp only [esbuildDebugIdInjectionPlugin.onLoadStub] at h
    exact hne (getDebugIdSnippet_inj h)

/-- Witness for C1 at concrete inputs. -/
theorem c1_debug_id_uniqueness_witness :
    (esbuildDebugIdInjectionPlugin.onResolveStub sampleImportArgs "u-1").suffix =
      some ("?sentry-module-id=" ++ "u-1") ∧
    (esbuildDebugIdInjectionPlugin.onResolveStub sampleImportArgs "u-1").suffix ≠
      (esbuildDebugIdInjectionPlugin.onResolveStub sampleImportArgs "u-2").suffix ∧
    (esbuildDebugIdInjectionPlugin.onLoadStub "u-1").contents ≠
      (esbuildDebugIdInjectionPlugin.onLoadStub "u-2").contents :=
  ⟨c1_debug_id_uniqueness.1 sampleImportArgs "u-1",
   c1_debug_id_uniqueness.2.1 sampleImportArgs sampleImportArgs "u-1" "u-2" (by decide),
   c1_debug_id_uniqueness.2.2.2 "u-1" "u-2" (by decide)⟩

/-! ## C2 -/

/-- Spec-shaped description of the proxy module source (spec §4.2): whitespace
around, in this order, the stub import, the import of the original resolved
path, the explicit forwarding of the original default export, and the wildcard
re-export from the original path. -/
def SpecProxySourceShape (contents originalPath : String) : Prop :=
  ∃ w1 w2 w3 w4 : String,
    contents =
      w1 ++ "import \"_sentry-debug-id-injection-stub\";" ++
      w2 ++ "import * as OriginalModule from \"" ++ originalPath ++ "\";" ++
      w3 ++ "export default OriginalModule.default;" ++
      w4 ++ "export * from \"" ++ originalPath ++ "\";"

/-- C2: the debug-id injection plugin redirects exactly the entry-point
resolutions (anything else is left untouched), the redirect goes to the proxy
namespace carrying the original path and resolve directory, and the proxy
module it loads resolves against the original directory with generated source
of the spec shape: stub import first, then import of the original path,
explicit default forwarding, wildcard re-export from the original path. -/
theorem c2_entry_redirect :
    (∀ (args : OnResolveArgs), args.kind ≠ "entry-point" →
      esbuildDebugIdInjectionPlugin.onResolveEntry args = none) ∧
    (∀ (args : OnResolveArgs), args.kind = "entry-point" →
      esbuildDebugIdInjectionPlugin.onResolveEntry args = some
        { pluginName := some esbuildDebugIdInjectionPlugin.pluginName
          path := some args.path
          nsp := some esbuildDebugIdInjectionPlugin.proxyNamespace
          sideEffects := none
          suffix := none
          pluginData := some
            { originalPath := args.path
              originalResolveDir := args.resolveDir } }) ∧
    (∀ (pluginData : PluginData),
      (esbuildDebugIdInjectionPlugin.onLoadProxy pluginData).resolveDir =
        some pluginData.originalResolveDir ∧
      SpecProxySourceShape
        (esbuildDebugIdInjectionPlugin.onLoadProxy pluginData).contents
        pluginData.originalPath) := by
  refine ⟨?_, ?_, ?_⟩
  · intro args h
    simp [esbuildDebugIdInjectionPlugin.onResolveEntry, h]
  · intro args h
    simp [esbuildDebugIdInjectionPlugin.onResolveEntry, h]
  · intro pluginData
    refine ⟨rfl, "\n              ", "\n              ", "\n              ",
      "\n              ", ?_⟩
    simp only [esbuildDebugIdInjectionPlugin.onLoadProxy,
      esbuildDebugIdInjectionPlugin.proxyContents, String.append_assoc]

/-- Witness for C2 at concrete inputs. -/
theorem c2_entry_redirect_witness :
    esbuildDebugIdInjectionPlugin.onResolveEntry sampleImportArgs = none ∧
    esbuildDebugIdInjectionPlugin.onResolveEntry sampleEntryArgs = some
      { pluginName := some esbuildDebugIdInjectionPlugin.pluginName
        path := some sampleEntryArgs.path
        nsp := some esbuildDebugIdInjectionPlugin.proxyNamespace
        sideEffects := none
        suffix := none
        pluginData := some
          { originalPath := sampleEntryArgs.path
            originalResolveDir := sampleEntryArgs.resolveDir } } ∧
    SpecProxySourceShape
      (esbuildDebugIdInjectionPlugin.onLoadProxy samplePluginData).contents
      samplePluginData.originalPath :=
  ⟨c2_entry_redirect.1 sampleImportArgs (by decide),
   c2_entry_redirect.2.1 sampleEntryArgs rfl,
   (c2_entry_redirect.2.2 samplePluginData).2⟩

/-! ## Sample orchestrator inputs -/

/-- A sample `setCommits` option object. -/
def sampleSetCommits : SetCommitsOptions :=
  { auto := some true, repo := none, commit := none, previousCommit := none,
    ignoreMissing := none, ignoreEmpty := none }

/-- A sample `deploy` option object. -/
def sampleDeploy : DeployOptions :=
  { env := "production", started := none, finished := none, time := none,
    name := none, url := none }

/-- Options enabling every skippable step. -/
def optsAll : NormalizedOptions :=
  { cleanArtifacts := true, uploadSourceMaps := true, includePaths := ["./dist"],
    dist := none, setCommits := some sampleSetCommits, finalize := true,
    deploy := some sampleDeploy }

/-- Options disabling every skippable step. -/
def optsNone : NormalizedOptions :=
  { cleanArtifacts := false, uploadSourceMaps := false, includePaths := [],
    dist := none, setCommits := none, finalize := false, deploy := none }

/-- A context whose external service always completes normally, telemetry
active. -/
def ctxOk : BuildContext :=
  { telemetryActive := true, cli := fun _ => Except.ok () }

/-- A context whose external service always throws `"boom"`, telemetry
active. -/
def ctxFail : BuildContext :=
  { telemetryActive := true, cli := fun _ => Except.error "boom" }

/-! ## C3 -/

/-- C3: for every orchestrator step whose external call throws `e`, the step
captures the step-specific "CLI Error: ... failed" exception, re-throws the
original `e` unchanged, and emits neither a breadcrumb nor its success log
line on that path. -/
theorem c3_failure_capture_and_rethrow :
    (∀ (o : NormalizedOptions) (ctx : BuildContext) (n e : String),
      ctx.cli (ExtCall.releasesNew n) = Except.error e →
      (createNewRelease o ctx n).2 = Except.error e ∧
      Event.captureException "CLI Error: Creating new release failed" ∈
        (createNewRelease o ctx n).1 ∧
      (∀ lvl msg, Event.breadcrumb lvl msg ∉ (createNewRelease o ctx n).1) ∧
      Event.log "info" "Successfully created release." ∉ (createNewRelease o ctx n).1) ∧
    (∀ (o : NormalizedOptions) (ctx : BuildContext) (n e : String),
      o.cleanArtifacts = true →
      ctx.cli (ExtCall.releasesExecute ["releases", "files", n, "delete", "--all"] true) =
        Except.error e →
      (cleanArtifacts o ctx n).2 = Except.error e ∧
      Event.captureException "CLI Error: Deleting release files failed" ∈
        (cleanArtifacts o ctx n).1 ∧
      (∀ lvl msg, Event.breadcrumb lvl msg ∉ (cleanArtifacts o ctx n).1) ∧
      Event.log "info" "Successfully cleaned previous artifacts." ∉
        (cleanArtifacts o ctx n).1) ∧
    (∀ (o : NormalizedOptions) (ctx : BuildContext) (n e : String),
      o.uploadSourceMaps = true →
      ctx.cli (ExtCall.uploadSourceMaps n o.includePaths o.dist) = Except.error e →
      (uploadSourceMaps o ctx n).2 = Except.error e ∧
      Event.captureException "CLI Error: Uploading source maps failed" ∈
        (uploadSourceMaps o ctx n).1 ∧
      (∀ lvl msg, Event.breadcrumb lvl msg ∉ (uploadSourceMaps o ctx n).1) ∧
      Event.log "info" "Successfully uploaded source maps." ∉
        (uploadSourceMaps o ctx n).1) ∧
    (∀ (o : NormalizedOptions) (ctx : BuildContext) (n e : String)
        (sc : SetCommitsOptions),
      o.setCommits = some sc →
      ctx.cli (ExtCall.setCommits n sc) = Except.error e →
      (setCommits o ctx n).2 = Except.error e ∧
      Event.captureException "CLI Error: Setting commits failed" ∈ (setCommits o ctx n).1 ∧
      (∀ lvl msg, Event.breadcrumb lvl msg ∉ (setCommits o ctx n).1) ∧
      Event.log "info" "Successfully set commits." ∉ (setCommits o ctx n).1) ∧
    (∀ (o : NormalizedOptions) (ctx : BuildContext) (n e : String),
      o.finalize = true →
      ctx.cli (ExtCall.finalize n) = Except.error e →
      (finalizeRelease o ctx n).2 = Except.error e ∧
      Event.captureException "CLI Error: Finalizing release failed" ∈
        (finalizeRelease o ctx n).1 ∧
      (∀ lvl msg, Event.breadcrumb lvl msg ∉ (finalizeRelease o ctx n).1) ∧
      Event.log "info" "Successfully finalized release." ∉ (finalizeRelease o ctx n).1) ∧
    (∀ (o : NormalizedOptions) (ctx : BuildContext) (n e : String)
        (d : DeployOptions),
      o.deploy = some d →
      ctx.cli (ExtCall.newDeploy n d) = Except.error e →
      (addDeploy o ctx n).2 = Except.error e ∧
      Event.captureException "CLI Error: Adding deploy info failed" ∈ (addDeploy o ctx n).1 ∧
      (∀ lvl msg, Event.breadcrumb lvl msg ∉ (addDeploy o ctx n).1) ∧
      Event.log "info" "Successfully added deploy." ∉ (addDeploy o ctx n).1) := by
  refine ⟨?_, ?_, ?_, ?_, ?_, ?_⟩
  · intro o ctx n e hcli
    cases hT : ctx.telemetryActive <;>
      simp [createNewRelease, hcli, spanStartEvents, spanFinishEvents, hT]
  · intro o ctx n e hopt hcli
    cases hT : ctx.telemetryActive <;>
      simp [cleanArtifacts, hopt, hcli, spanStartEvents, spanFinishEvents, hT]
  · intro o ctx n e hopt hcli
    cases hT : ctx.telemetryActive <;>
      simp [uploadSourceMaps, hopt, hcli, spanStartEvents, spanFinishEvents, hT]
  · intro o ctx n e sc hopt hcli
    cases hT : ctx.telemetryActive <;>
      simp [setCommits, hopt, hcli, spanStartEvents, spanFinishEvents, hT]
  · intro o ctx n e hopt hcli
    cases hT : ctx.telemetryActive <;>
      simp [finalizeRelease, hopt, hcli, spanStartEvents, spanFinishEvents, hT]
  · intro o ctx n e d hopt hcli
    cases hT : ctx.telemetryActive <;>
      simp [addDeploy, hopt, hcli, spanStartEvents, spanFinishEvents, hT]

/-- Witness for C3: the always-throwing context re-throws `"boom"` from every
step. -/
theorem c3_failure_capture_and_rethrow_witness :
    (createNewRelease optsAll ctxFail "r").2 = Except.error "boom" ∧
    (cleanArtifacts optsAll ctxFail "r").2 = Except.error "boom" ∧
    (uploadSourceMaps optsAll ctxFail "r").2 = Except.error "boom" ∧
    (setCommits optsAll ctxFail "r").2 = Except.error "boom" ∧
    (finalizeRelease optsAll ctxFail "r").2 = Except.error "boom" ∧
    (addDeploy optsAll ctxFail "r").2 = Except.error "boom" :=
  ⟨(c3_failure_capture_and_rethrow.1 optsAll ctxFail "r" "boom" rfl).1,
   (c3_failure_capture_and_rethrow.2.1 optsAll ctxFail "r" "boom" rfl rfl).1,
   (c3_failure_capture_and_rethrow.2.2.1 optsAll ctxFail "r" "boom" rfl rfl).1,
   (c3_failure_capture_and_rethrow.2.2.2.1 optsAll ctxFail "r" "boom" sampleSetCommits
     rfl rfl).1,
   (c3_failure_capture_and_rethrow.2.2.2.2.1 optsAll ctxFail "r" "boom" rfl rfl).1,
   (c3_failure_capture_and_rethrow.2.2.2.2.2 optsAll ctxFail "r" "boom" sampleDeploy
     rfl rfl).1⟩

/-! ## C4 -/

/-- C4: a step whose enable flag is false or whose option object is absent
makes no external call, captures no exception, and returns normally. -/
theorem c4_skip_frame :
    (∀ (o : NormalizedOptions) (ctx : BuildContext) (n : String),
      o.cleanArtifacts = false →
      (∀ c, Event.extCall c ∉ (cleanArtifacts o ctx n).1) ∧
      (∀ m, Event.captureException m ∉ (cleanArtifacts o ctx n).1) ∧
      (cleanArtifacts o ctx n).2 = Except.ok ()) ∧
    (∀ (o : NormalizedOptions) (ctx : BuildContext) (n : String),
      o.uploadSourceMaps = false →
      (∀ c, Event.extCall c ∉ (uploadSourceMaps o ctx n).1) ∧
      (∀ m, Event.captureException m ∉ (uploadSourceMaps o ctx n).1) ∧
      (uploadSourceMaps o ctx n).2 = Except.ok ()) ∧
    (∀ (o : NormalizedOptions) (ctx : BuildContext) (n : String),
      o.setCommits = none →
      (∀ c, Event.extCall c ∉ (setCommits o ctx n).1) ∧
      (∀ m, Event.captureException m ∉ (setCommits o ctx n).1) ∧
      (setCommits o ctx n).2 = Except.ok ()) ∧
    (∀ (o : NormalizedOptions) (ctx : BuildContext) (n : String),
      o.finalize = false →
      (∀ c, Event.extCall c ∉ (finalizeRelease o ctx n).1) ∧
      (∀ m, Event.captureException m ∉ (finalizeRelease o ctx n).1) ∧
      (finalizeRelease o ctx n).2 = Except.ok ()) ∧
    (∀ (o : NormalizedOptions) (ctx : BuildContext) (n : String),
      o.deploy = none →
      (∀ c, Event.extCall c ∉ (addDeploy o ctx n).1) ∧
      (∀ m, Event.captureException m ∉ (addDeploy o ctx n).1) ∧
      (addDeploy o ctx n).2 = Except.ok ()) := by
  refine ⟨?_, ?_, ?_, ?_, ?_⟩
  · intro o ctx n h
    simp [cleanArtifacts, h]
  · intro o ctx n h
    simp [uploadSourceMaps, h]
  · intro o ctx n h
    simp [setCommits, h]
  · intro o ctx n h
    simp [finalizeRelease, h]
  · intro o ctx n h
    simp [addDeploy, h]

/-- Witness for C4: with every step disabled, each step returns normally even
against the always-throwing service. -/
theorem c4_skip_frame_witness :
    (cleanArtifacts optsNone ctxFail "r").2 = Except.ok () ∧
    (uploadSourceMaps optsNone ctxFail "r").2 = Except.ok () ∧
    (setCommits optsNone ctxFail "r").2 = Except.ok () ∧
    (finalizeRelease optsNone ctxFail "r").2 = Except.ok () ∧
    (addDeploy optsNone ctxFail "r").2 = Except.ok () :=
  ⟨(c4_skip_frame.1 optsNone ctxFail "r" rfl).2.2,
   (c4_skip_frame.2.1 optsNone ctxFail "r" rfl).2.2,
   (c4_skip_frame.2.2.1 optsNone ctxFail "r" rfl).2.2,
   (c4_skip_frame.2.2.2.1 optsNone ctxFail "r" rfl).2.2,
   (c4_skip_frame.2.2.2.2 optsNone ctxFail "r" rfl).2.2⟩

/-! ## C6 -/

/-- The trace starts with the span `op`, later makes the external call `call`,
and finishes the span `op` after the call. -/
def SpanWrapsCall (trace : List Event) (op : String) (call : ExtCall) : Prop :=
  ∃ mid post, trace = Event.spanStart op :: (mid ++ Event.extCall call :: post) ∧
    Event.spanFinish op ∈ post

/-- C6: every step that is not skipped starts a span named after the step
before the external call and finishes it after the call on every outcome
(the conjuncts quantify over arbitrary contexts, so both the success and the
throw outcome are covered); a step skipped before the call starts no span. -/
theorem c6_span_lifecycle :
    (∀ (o : NormalizedOptions) (ctx : BuildContext) (n : String),
      ctx.telemetryActive = true →
      SpanWrapsCall (createNewRelease o ctx n).1 "function.plugin.create_release"
        (ExtCall.releasesNew n)) ∧
    (∀ (o : NormalizedOptions) (ctx : BuildContext) (n : String),
      ctx.telemetryActive = true → o.cleanArtifacts = true →
      SpanWrapsCall (cleanArtifacts o ctx n).1 "function.plugin.clean_artifacts"
        (ExtCall.releasesExecute ["releases", "files", n, "delete", "--all"] true)) ∧
    (∀ (o : NormalizedOptions) (ctx : BuildContext) (n : String),
      ctx.telemetryActive = true → o.uploadSourceMaps = true →
      SpanWrapsCall (uploadSourceMaps o ctx n).1 "function.plugin.upload_sourcemaps"
        (ExtCall.uploadSourceMaps n o.includePaths o.dist)) ∧
    (∀ (o : NormalizedOptions) (ctx : BuildContext) (n : String)
        (sc : SetCommitsOptions),
      ctx.telemetryActive = true → o.setCommits = some sc →
      SpanWrapsCall (setCommits o ctx n).1 "function.plugin.set_commits"
        (ExtCall.setCommits n sc)) ∧
    (∀ (o : NormalizedOptions) (ctx : BuildContext) (n : String),
      ctx.telemetryActive = true → o.finalize = true →
      SpanWrapsCall (finalizeRelease o ctx n).1 "function.plugin.finalize_release"
        (ExtCall.finalize n)) ∧
    (∀ (o : NormalizedOptions) (ctx : BuildContext) (n : String)
        (d : DeployOptions),
      ctx.telemetryActive = true → o.deploy = some d →
      SpanWrapsCall (addDeploy o ctx n).1 "function.plugin.deploy"
        (ExtCall.newDeploy n d)) ∧
    (∀ (o : NormalizedOptions) (ctx : BuildContext) (n op : String),
      o.cleanArtifacts = false → Event.spanStart op ∉ (cleanArtifacts o ctx n).1) ∧
    (∀ (o : NormalizedOptions) (ctx : BuildContext) (n op : String),
      o.uploadSourceMaps = false → Event.spanStart op ∉ (uploadSourceMaps o ctx n).1) ∧
    (∀ (o : NormalizedOptions) (ctx : BuildContext) (n op : String),
      o.setCommits = none → Event.spanStart op ∉ (setCommits o ctx n).1) ∧
    (∀ (o : NormalizedOptions) (ctx : BuildContext) (n op : String),
      o.finalize = false → Event.spanStart op ∉ (finalizeRelease o ctx n).1) ∧
    (∀ (o : NormalizedOptions) (ctx : BuildContext) (n op : String),
      o.deploy = none → Event.spanStart op ∉ (addDeploy o ctx n).1) := by
  refine ⟨?_, ?_, ?_, ?_, ?_, ?_, ?_, ?_, ?_, ?_, ?_⟩
  · intro o ctx n hT
    cases hc : ctx.cli (ExtCall.releasesNew n) with
    | ok u =>
        refine ⟨[], [Event.spanFinish "function.plugin.create_release",
          Event.breadcrumb "info" "Successfully created release.",
          Event.log "info" "Successfully created release."], ?_, by simp⟩
        simp [createNewRelease, hc, spanStartEvents, spanFinishEvents, hT]
    | error e =>
        refine ⟨[], [Event.captureException "CLI Error: Creating new release failed",
          Event.spanFinish "function.plugin.create_release"], ?_, by simp⟩
        simp [createNewRelease, hc, spanStartEvents, spanFinishEvents, hT]
  · intro o ctx n hT hopt
    cases hc : ctx.cli (ExtCall.releasesExecute
        ["releases", "files", n, "delete", "--all"] true) with
    | ok u =>
        refine ⟨[], [Event.spanFinish "function.plugin.clean_artifacts",
          Event.breadcrumb "info" "Successfully cleaned previous artifacts.",
          Event.log "info" "Successfully cleaned previous artifacts."], ?_, by simp⟩
        simp [cleanArtifacts, hopt, hc, spanStartEvents, spanFinishEvents, hT]
    | error e =>
        refine ⟨[], [Event.captureException "CLI Error: Deleting release files failed",
          Event.spanFinish "function.plugin.clean_artifacts"], ?_, by simp⟩
        simp [cleanArtifacts, hopt, hc, spanStartEvents, spanFinishEvents, hT]
  · intro o ctx n hT hopt
    cases hc : ctx.cli (ExtCall.uploadSourceMaps n o.includePaths o.dist) with
    | ok u =>
        refine ⟨[Event.log "info" "Uploading Sourcemaps."],
          [Event.spanFinish "function.plugin.upload_sourcemaps",
           Event.breadcrumb "info" "Successfully uploaded source maps.",
           Event.log "info" "Successfully uploaded source maps."], ?_, by simp⟩
        simp [uploadSourceMaps, hopt, hc, spanStartEvents, spanFinishEvents, hT]
    | error e =>
        refine ⟨[Event.log "info" "Uploading Sourcemaps."],
          [Event.captureException "CLI Error: Uploading source maps failed",
           Event.spanFinish "function.plugin.upload_sourcemaps"], ?_, by simp⟩
        simp [uploadSourceMaps, hopt, hc, spanStartEvents, spanFinishEvents, hT]
  · intro o ctx n sc hT hopt
    cases hc : ctx.cli (ExtCall.setCommits n sc) with
    | ok u =>
        refine ⟨[], [Event.spanFinish "function.plugin.set_commits",
          Event.log "info" "Successfully set commits."], ?_, by simp⟩
        simp [setCommits, hopt, hc, spanStartEvents, spanFinishEvents, hT]
    | error e =>
        refine ⟨[], [Event.captureException "CLI Error: Setting commits failed",
          Event.spanFinish "function.plugin.set_commits"], ?_, by simp⟩
        simp [setCommits, hopt, hc, spanStartEvents, spanFinishEvents, hT]
  · intro o ctx n hT hopt
    cases hc : ctx.cli (ExtCall.finalize n) with
    | ok u =>
        refine ⟨[], [Event.spanFinish "function.plugin.finalize_release",
          Event.breadcrumb "info" "Successfully finalized release.",
          Event.log "info" "Successfully finalized release."], ?_, by simp⟩
        simp [finalizeRelease, hopt, hc, spanStartEvents, spanFinishEvents, hT]
    | error e =>
        refine ⟨[], [Event.captureException "CLI Error: Finalizing release failed",
          Event.spanFinish "function.plugin.finalize_release"], ?_, by simp⟩
        simp [finalizeRelease, hopt, hc, spanStartEvents, spanFinishEvents, hT]
  · intro o ctx n d hT hopt
    cases hc : ctx.cli (ExtCall.newDeploy n d) with
    | ok u =>
        refine ⟨[], [Event.spanFinish "function.plugin.deploy",
          Event.breadcrumb "info" "Successfully added deploy.",
          Event.log "info" "Successfully added deploy."], ?_, by simp⟩
        simp [addDeploy, hopt, hc, spanStartEvents, spanFinishEvents, hT]
    | error e =>
        refine ⟨[], [Event.captureException "CLI Error: Adding deploy info failed",
          Event.spanFinish "function.plugin.deploy"], ?_, by simp⟩
        simp [addDeploy, hopt, hc, spanStartEvents, spanFinishEvents, hT]
  · intro o ctx n op h
    simp [cleanArtifacts, h]
  · intro o ctx n op h
    simp [uploadSourceMaps, h]
  · intro o ctx n op h
    simp [setCommits, h]
  · intro o ctx n op h
    simp [finalizeRelease, h]
  · intro o ctx n op h
    simp [addDeploy, h]

/-- Witness for C6: concrete spans around concrete calls, and no span when
skipped. -/
theorem c6_span_lifecycle_witness :
    SpanWrapsCall (createNewRelease optsAll ctxOk "r").1
      "function.plugin.create_release" (ExtCall.releasesNew "r") ∧
    SpanWrapsCall (cleanArtifacts optsAll ctxFail "r").1
      "function.plugin.clean_artifacts"
      (ExtCall.releasesExecute ["releases", "files", "r", "delete", "--all"] true) ∧
    SpanWrapsCall (uploadSourceMaps optsAll ctxOk "r").1
      "function.plugin.upload_sourcemaps"
      (ExtCall.uploadSourceMaps "r" optsAll.includePaths optsAll.dist) ∧
    SpanWrapsCall (setCommits optsAll ctxOk "r").1 "function.plugin.set_commits"
      (ExtCall.setCommits "r" sampleSetCommits) ∧
    SpanWrapsCall (finalizeRelease optsAll ctxFail "r").1
      "function.plugin.finalize_release" (ExtCall.finalize "r") ∧
    SpanWrapsCall (addDeploy optsAll ctxOk "r").1 "function.plugin.deploy"
      (ExtCall.newDeploy "r" sampleDeploy) ∧
    Event.spanStart "function.plugin.clean_artifacts" ∉ (cleanArtifacts optsNone ctxOk "r").1 ∧
    Event.spanStart "function.plugin.deploy" ∉ (addDeploy optsNone ctxOk "r").1 :=
  ⟨c6_span_lifecycle.1 optsAll ctxOk "r" rfl,
   c6_span_lifecycle.2.1 optsAll ctxFail "r" rfl rfl,
   c6_span_lifecycle.2.2.1 optsAll ctxOk "r" rfl rfl,
   c6_span_lifecycle.2.2.2.1 optsAll ctxOk "r" sampleSetCommits rfl rfl,
   c6_span_lifecycle.2.2.2.2.1 optsAll ctxFail "r" rfl rfl,
   c6_span_lifecycle.2.2.2.2.2.1 optsAll ctxOk "r" sampleDeploy rfl rfl,
   c6_span_lifecycle.2.2.2.2.2.2.1 optsNone ctxOk "r"
     "function.plugin.clean_artifacts" rfl,
   c6_span_lifecycle.2.2.2.2.2.2.2.2.2.2 optsNone ctxOk "r"
     "function.plugin.deploy" rfl⟩

/-! ## C7 -/

/-- C7: with `finalize` false and `deploy` absent, the finalize and add-deploy
steps each emit exactly an info "skipping" breadcrumb plus a debug log line and
return normally with no external call; the other skippable steps, when skipped,
emit exactly the debug log line and no breadcrumb. -/
theorem c7_skip_observability :
    (∀ (o : NormalizedOptions) (ctx : BuildContext) (n : String),
      o.finalize = false →
      finalizeRelease o ctx n =
        ([Event.breadcrumb "info" "Skipping release finalization.",
          Event.log "debug" "Skipping release finalization."], Except.ok ())) ∧
    (∀ (o : NormalizedOptions) (ctx : BuildContext) (n : String),
      o.deploy = none →
      addDeploy o ctx n =
        ([Event.breadcrumb "info" "Skipping adding deploy info to release.",
          Event.log "debug" "Skipping adding deploy info to release."], Except.ok ())) ∧
    (∀ (o : NormalizedOptions) (ctx : BuildContext) (n : String),
      o.cleanArtifacts = false →
      cleanArtifacts o ctx n =
        ([Event.log "debug" "Skipping artifact cleanup."], Except.ok ())) ∧
    (∀ (o : NormalizedOptions) (ctx : BuildContext) (n : String),
      o.uploadSourceMaps = false →
      uploadSourceMaps o ctx n =
        ([Event.log "debug" "Skipping source maps upload."], Except.ok ())) ∧
    (∀ (o : NormalizedOptions) (ctx : BuildContext) (n : String),
      o.setCommits = none →
      setCommits o ctx n =
        ([Event.log "debug" "Skipping setting commits to release."], Except.ok ())) := by
  refine ⟨?_, ?_, ?_, ?_, ?_⟩
  · intro o ctx n h
    simp [finalizeRelease, h]
  · intro o ctx n h
    simp [addDeploy, h]
  · intro o ctx n h
    simp [cleanArtifacts, h]
  · intro o ctx n h
    simp [uploadSourceMaps, h]
  · intro o ctx n h
    simp [setCommits, h]

/-- Witness for C7 at the configuration of the claim. -/
theorem c7_skip_observability_witness :
    finalizeRelease optsNone ctxFail "r" =
      ([Event.breadcrumb "info" "Skipping release finalization.",
        Event.log "debug" "Skipping release finalization."], Except.ok ()) ∧
    addDeploy optsNone ctxFail "r" =
      ([Event.breadcrumb "info" "Skipping adding deploy info to release.",
        Event.log "debug" "Skipping adding deploy info to release."], Except.ok ()) ∧
    cleanArtifacts optsNone ctxFail "r" =
      ([Event.log "debug" "Skipping artifact cleanup."], Except.ok ()) ∧
    uploadSourceMaps optsNone ctxFail "r" =
      ([Event.log "debug" "Skipping source maps upload."], Except.ok ()) ∧
    setCommits optsNone ctxFail "r" =
      ([Event.log "debug" "Skipping setting commits to release."], Except.ok ()) :=
  ⟨c7_skip_observability.1 optsNone ctxFail "r" rfl,
   c7_skip_observability.2.1 optsNone ctxFail "r" rfl,
   c7_skip_observability.2.2.1 optsNone ctxFail "r" rfl,
   c7_skip_observability.2.2.2.1 optsNone ctxFail "r" rfl,
   c7_skip_observability.2.2.2.2 optsNone ctxFail "r" rfl⟩

/-! ## C8 -/

/-- C8: on success, the set-commits step emits its info log and no breadcrumb
at all, while the create, clean, upload-sourcemaps, finalize and deploy steps
each add a success breadcrumb in addition to the info log. -/
theorem c8_success_breadcrumbs :
    (∀ (o : NormalizedOptions) (ctx : BuildContext) (n : String)
        (sc : SetCommitsOptions),
      o.setCommits = some sc →
      ctx.cli (ExtCall.setCommits n sc) = Except.ok () →
      Event.log "info" "Successfully set commits." ∈ (setCommits o ctx n).1 ∧
      (∀ lvl msg, Event.breadcrumb lvl msg ∉ (setCommits o ctx n).1)) ∧
    (∀ (o : NormalizedOptions) (ctx : BuildContext) (n : String),
      ctx.cli (ExtCall.releasesNew n) = Except.ok () →
      Event.breadcrumb "info" "Successfully created release." ∈
        (createNewRelease o ctx n).1 ∧
      Event.log "info" "Successfully created release." ∈ (createNewRelease o ctx n).1) ∧
    (∀ (o : NormalizedOptions) (ctx : BuildContext) (n : String),
      o.cleanArtifacts = true →
      ctx.cli (ExtCall.releasesExecute ["releases", "files", n, "delete", "--all"] true) =
        Except.ok () →
      Event.breadcrumb "info" "Successfully cleaned previous artifacts." ∈
        (cleanArtifacts o ctx n).1 ∧
      Event.log "info" "Successfully cleaned previous artifacts." ∈
        (cleanArtifacts o ctx n).1) ∧
    (∀ (o : NormalizedOptions) (ctx : BuildContext) (n : String),
      o.uploadSourceMaps = true →
      ctx.cli (ExtCall.uploadSourceMaps n o.includePaths o.dist) = Except.ok () →
      Event.breadcrumb "info" "Successfully uploaded source maps." ∈
        (uploadSourceMaps o ctx n).1 ∧
      Event.log "info" "Successfully uploaded source maps." ∈
        (uploadSourceMaps o ctx n).1) ∧
    (∀ (o : NormalizedOptions) (ctx : BuildContext) (n : String),
      o.finalize = true →
      ctx.cli (ExtCall.finalize n) = Except.ok () →
      Event.breadcrumb "info" "Successfully finalized release." ∈
        (finalizeRelease o ctx n).1 ∧
      Event.log "info" "Successfully finalized release." ∈ (finalizeRelease o ctx n).1) ∧
    (∀ (o : NormalizedOptions) (ctx : BuildContext) (n : String)
        (d : DeployOptions),
      o.deploy = some d →
      ctx.cli (ExtCall.newDeploy n d) = Except.ok () →
      Event.breadcrumb "info" "Successfully added deploy." ∈ (addDeploy o ctx n).1 ∧
      Event.log "info" "Successfully added deploy." ∈ (addDeploy o ctx n).1) := by
  refine ⟨?_, ?_, ?_, ?_, ?_, ?_⟩
  · intro o ctx n sc hopt hcli
    cases hT : ctx.telemetryActive <;>
      simp [setCommits, hopt, hcli, spanStartEvents, spanFinishEvents, hT]
  · intro o ctx n hcli
    cases hT : ctx.telemetryActive <;>
      simp [createNewRelease, hcli, spanStartEvents, spanFinishEvents, hT]
  · intro o ctx n hopt hcli
    cases hT : ctx.telemetryActive <;>
      simp [cleanArtifacts, hopt, hcli, spanStartEvents, spanFinishEvents, hT]
  · intro o ctx n hopt hcli
    cases hT : ctx.telemetryActive <;>
      simp [uploadSourceMaps, hopt, hcli, spanStartEvents, spanFinishEvents, hT]
  · intro o ctx n hopt hcli
    cases hT : ctx.telemetryActive <;>
      simp [finalizeRelease, hopt, hcli, spanStartEvents, spanFinishEvents, hT]
  · intro o ctx n d hopt hcli
    cases hT : ctx.telemetryActive <;>
      simp [addDeploy, hopt, hcli, spanStartEvents, spanFinishEvents, hT]

/-- Witness for C8 against the always-succeeding context. -/
theorem c8_success_breadcrumbs_witness :
    Event.log "info" "Successfully set commits." ∈ (setCommits optsAll ctxOk "r").1 ∧
    Event.breadcrumb "info" "Successfully set commits." ∉ (setCommits optsAll ctxOk "r").1 ∧
    Event.breadcrumb "info" "Successfully created release." ∈
      (createNewRelease optsAll ctxOk "r").1 ∧
    Event.breadcrumb "info" "Successfully cleaned previous artifacts." ∈
      (cleanArtifacts optsAll ctxOk "r").1 ∧
    Event.breadcrumb "info" "Successfully uploaded source maps." ∈
      (uploadSourceMaps optsAll ctxOk "r").1 ∧
    Event.breadcrumb "info" "Successfully finalized release." ∈
      (finalizeRelease optsAll ctxOk "r").1 ∧
    Event.breadcrumb "info" "Successfully added deploy." ∈ (addDeploy optsAll ctxOk "r").1 :=
  ⟨(c8_success_breadcrumbs.1 optsAll ctxOk "r" sampleSetCommits rfl rfl).1,
   (c8_success_breadcrumbs.1 optsAll ctxOk "r" sampleSetCommits rfl rfl).2
     "info" "Successfully set commits.",
   (c8_success_breadcrumbs.2.1 optsAll ctxOk "r" rfl).1,
   (c8_success_breadcrumbs.2.2.1 optsAll ctxOk "r" rfl rfl).1,
   (c8_success_breadcrumbs.2.2.2.1 optsAll ctxOk "r" rfl rfl).1,
   (c8_success_breadcrumbs.2.2.2.2.1 optsAll ctxOk "r" rfl rfl).1,
   (c8_success_breadcrumbs.2.2.2.2.2 optsAll ctxOk "r" sampleDeploy rfl rfl).1⟩
